import Mathlib

/-!
Verification development for the check-print-api backend: a shallow
embedding of the invoice/check workflow (app/api/routes/invoices.py,
app/api/routes/checks.py, app/api/routes/auth.py) together with proofs of
the specified properties.  The relational store is embedded as explicit
lists of rows; each endpoint is a function from its request data and the
store to `Except HTTPException (result × store)`, and an error leaves the
store untouched (each handler runs in its own transaction).
-/

namespace CheckPrint

/-- A fixed-point decimal amount (`Numeric(12, 2)` / Python `Decimal`):
mantissa and number of fraction digits. -/
structure Amount where
  mantissa : Int
  scale : Nat
deriving Repr, DecidableEq

/-- Numeric value of a list of decimal digit characters. -/
def digitsVal (cs : List Char) : Nat :=
  cs.foldl (fun a c => a * 10 + (c.toNat - 48)) 0

/-- Models Python `decimal.Decimal(s)` string conversion restricted to plain
signed decimal literals: optional sign, then digits with at most one point
and at least one digit overall.  Exponents and the special values
(NaN, Infinity) are outside every input the claims touch.  A string
`Decimal` rejects (raising `InvalidOperation`) maps to `none`. -/
def parseDecimalChars (cs : List Char) : Option Amount :=
  let signed : Bool × List Char :=
    match cs with
    | '-' :: r => (true, r)
    | '+' :: r => (false, r)
    | r => (false, r)
  let intPart := (signed.2.span Char.isDigit).1
  let rest := (signed.2.span Char.isDigit).2
  match rest with
  | [] =>
    if intPart.isEmpty then none
    else some ⟨(if signed.1 then -1 else 1) * (digitsVal intPart : Int), 0⟩
  | '.' :: rest2 =>
    let fracPart := (rest2.span Char.isDigit).1
    if (rest2.span Char.isDigit).2.isEmpty ∧ ¬(intPart.isEmpty ∧ fracPart.isEmpty) then
      some ⟨(if signed.1 then -1 else 1) *
              ((digitsVal intPart * 10 ^ fracPart.length + digitsVal fracPart : Nat) : Int),
            fracPart.length⟩
    else none
  | _ => none

def parseDecimal (s : String) : Option Amount :=
  parseDecimalChars s.data

/-- Models `dateutil.parser.parse(s).date()` restricted to ISO `YYYY-MM-DD`
input; the claims depend only on whether parsing succeeds.  A date is
encoded as the natural number `y * 10000 + m * 100 + d`. -/
def parseDate (s : String) : Option Nat :=
  match s.data with
  | [y1, y2, y3, y4, '-', m1, m2, '-', d1, d2] =>
    if ([y1, y2, y3, y4, m1, m2, d1, d2].all Char.isDigit) then
      some (digitsVal [y1, y2, y3, y4] * 10000 + digitsVal [m1, m2] * 100 + digitsVal [d1, d2])
    else none
  | _ => none

/-- Python `str.strip()` with no argument: drop leading and trailing
whitespace. -/
def pyStrip (s : String) : String :=
  String.mk (((s.data.dropWhile Char.isWhitespace).reverse.dropWhile Char.isWhitespace).reverse)

/-- Python `str.lower()` (ASCII casing suffices for filenames here). -/
def pyLower (s : String) : String :=
  String.mk (s.data.map Char.toLower)

/-- Python `str.endswith(suffix)`. -/
def pyEndsWith (s suffix : String) : Bool :=
  suffix.data.isSuffixOf s.data

/-- Python `f"{n:06d}"` for a nonnegative `n`: zero-pad to width 6. -/
def pad6 (n : Nat) : String :=
  String.mk (List.replicate (6 - (toString n).length) '0') ++ toString n

/-- Python `a or b` for an optional string `a`: `b` when `a` is None or the
empty string (both falsy), else the string in `a`. -/
def pyStrOr (a : Option String) (b : String) : String :=
  match a with
  | some s => if s = "" then b else s
  | none => b

-- ── Data model (app/models/vendor.py, invoice.py, check.py; User is
-- modelled from the spec, see below) ─────────────────────────────────

/-- Vendor row (app/models/vendor.py); only the claim-relevant columns. -/
structure Vendor where
  id : Nat
  name : String
deriving Repr, DecidableEq

/-- Invoice row (app/models/invoice.py); only the claim-relevant columns.
`status` is a plain string, as in the source (the update endpoint can store
arbitrary strings in it). -/
structure Invoice where
  id : Nat
  invoice_number : String
  store_number : String
  vendor_id : Nat
  amount : Amount
  invoice_date : Nat
  status : String
  check_id : Option Nat
  notes : Option String
  source_type : String
  imported_by_id : Option Nat
deriving Repr, DecidableEq

/-- Check row (app/models/check.py); only the claim-relevant columns. -/
structure Check where
  id : Nat
  check_number : String
  vendor_id : Nat
  amount : Amount
  status : String
  issue_date : Nat
  memo : String
deriving Repr, DecidableEq

/-- Modelled from the spec: app/models/user.py is not under src/ (only its
importers are).  Spec §3 User: identity = unique email; attributes
hashed_password, full_name, role (ADMIN|CLERK|VIEWER), is_active.  Only the
claim-relevant attributes appear. -/
structure User where
  id : Nat
  email : String
  full_name : String
  role : String
  is_active : Bool
deriving Repr, DecidableEq

/-- The relational store: one list of rows per table.  Primary keys are
assigned at flush as `max existing id + 1` (fresh integer autoincrement),
so every stored id is at least 1. -/
structure DB where
  vendors : List Vendor
  invoices : List Invoice
  checks : List Check
  users : List User
deriving Repr, DecidableEq

def initDB : DB := ⟨[], [], [], []⟩

def maxVendorId (l : List Vendor) : Nat := l.foldl (fun a v => max a v.id) 0
def maxInvoiceId (l : List Invoice) : Nat := l.foldl (fun a v => max a v.id) 0
def maxCheckId (l : List Check) : Nat := l.foldl (fun a v => max a v.id) 0

/-- fastapi.HTTPException as raised by the handlers. -/
structure HTTPException where
  status_code : Nat
  detail : String
deriving Repr, DecidableEq

/-- Store state after a handler ran: the new store on success, the original
store when the handler raised (its transaction is rolled back). -/
def dbAfter {α : Type} (r : Except HTTPException (α × DB)) (db : DB) : DB :=
  match r with
  | .ok (_, db2) => db2
  | .error _ => db

-- ── Role gates ───────────────────────────────────────────────────────

/-- Modelled from the spec: app/core/security.py is not under src/ (only
its importers are).  Spec §4.4 describes per-operation capability checks
over the flat role set ADMIN | CLERK | VIEWER, and the gate names in the
route files name the admitted roles.  A gate admits an active user whose
role is in its list. -/
def allowRoles (allowed : List String) (u : User) : Bool :=
  u.is_active && allowed.contains u.role

def allow_all_roles (u : User) : Bool := allowRoles ["ADMIN", "CLERK", "VIEWER"] u
def allow_admin_clerk (u : User) : Bool := allowRoles ["ADMIN", "CLERK"] u
def allow_admin (u : User) : Bool := allowRoles ["ADMIN"] u

-- ── Check issuance (app/api/routes/checks.py, generate_check) ────────

structure GenerateCheckRequest where
  invoice_id : Nat
  memo : Option String
deriving Repr, DecidableEq

/-- POST /api/checks (checks.py lines 44-83), gated by `allow_admin`.
`today` is `date.today()`.  The invoice lookup is by primary key; a
missing invoice is 404.  Status then check_id are validated in source
order; `if invoice.check_id:` coincides with `isSome` because stored ids
are at least 1.  The new check's primary key is assigned at flush as the
next autoincrement value `max existing id + 1`, which is also the number
the handler computed from `select(func.max(Check.id))`. -/
def generate_check (u : User) (body : GenerateCheckRequest) (today : Nat) (db : DB) :
    Except HTTPException (Check × DB) :=
  if allow_admin u = false then .error ⟨403, "Not enough permissions"⟩ else
  match db.invoices.find? (fun i => i.id == body.invoice_id) with
  | none => .error ⟨404, "Invoice not found"⟩
  | some invoice =>
    if invoice.status ≠ "APPROVED" then
      .error ⟨400, "Invoice must be APPROVED (current: " ++ invoice.status ++ ")"⟩
    else if invoice.check_id.isSome then
      .error ⟨400, "Invoice already has a check assigned"⟩
    else
      let max_id := maxCheckId db.checks
      let check : Check :=
        { id := max_id + 1
          check_number := "CHK-" ++ pad6 (max_id + 1)
          vendor_id := invoice.vendor_id
          amount := invoice.amount
          status := "GENERATED"
          issue_date := today
          memo := pyStrOr body.memo ("Payment for invoice " ++ invoice.invoice_number) }
      let inv2 := { invoice with check_id := some check.id, status := "CHECK_GENERATED" }
      .ok (check,
        { db with
          checks := db.checks ++ [check]
          invoices := db.invoices.map fun i => if i.id == body.invoice_id then inv2 else i })

-- ── Invoice endpoints (app/api/routes/invoices.py) ───────────────────

/-- PUT /api/invoices/:id body (app/schemas/invoice.py InvoiceUpdate):
each field is `none` when absent from the request (pydantic
`exclude_unset`).  `notes` may be set to a value or explicitly to null;
an explicit null `status` would violate the NOT NULL column and is not
modelled. -/
structure InvoiceUpdate where
  notes : Option (Option String)
  status : Option String
deriving Repr, DecidableEq

/-- PUT /api/invoices/:id (invoices.py lines 90-107), gated by
`allow_all_roles`: an unvalidated field-level patch via `setattr`. -/
def update_invoice (u : User) (invoice_id : Nat) (body : InvoiceUpdate) (db : DB) :
    Except HTTPException (Invoice × DB) :=
  if allow_all_roles u = false then .error ⟨403, "Not enough permissions"⟩ else
  match db.invoices.find? (fun i => i.id == invoice_id) with
  | none => .error ⟨404, "Invoice not found"⟩
  | some inv =>
    let inv2 := { inv with
      notes := body.notes.getD inv.notes
      status := body.status.getD inv.status }
    .ok (inv2,
      { db with invoices := db.invoices.map fun i => if i.id == invoice_id then inv2 else i })

/-- POST /api/invoices/:id/approve (invoices.py lines 110-127), gated by
`allow_admin`. -/
def approve_invoice (u : User) (invoice_id : Nat) (db : DB) :
    Except HTTPException (Invoice × DB) :=
  if allow_admin u = false then .error ⟨403, "Not enough permissions"⟩ else
  match db.invoices.find? (fun i => i.id == invoice_id) with
  | none => .error ⟨404, "Invoice not found"⟩
  | some inv =>
    if inv.status ≠ "PENDING" then
      .error ⟨400, "Cannot approve invoice with status " ++ inv.status⟩
    else
      let inv2 := { inv with status := "APPROVED" }
      .ok (inv2,
        { db with invoices := db.invoices.map fun i => if i.id == invoice_id then inv2 else i })

-- ── Bulk importer (invoices.py lines 132-194) ────────────────────────

/-- One parsed data row: the result of `str(row.get(key, "") or "")` for
each column the importer reads (absent cells are the empty string). -/
structure Row where
  invoice_number : String
  store_number : String
  vendor_name : String
  amount : String
  invoice_date : String
  notes : String
deriving Repr, DecidableEq

structure ImportSummary where
  total_rows : Nat
  imported : Nat
  skipped_duplicates : Nat
  errors : List String
deriving Repr, DecidableEq

/-- Loop state of `_import_rows`: the store plus the running counters. -/
structure ImportState where
  db : DB
  total : Nat
  imported : Nat
  skipped : Nat
  errors : List String
deriving Repr, DecidableEq

/-- `_find_or_create_vendor` (invoices.py lines 132-139). -/
def find_or_create_vendor (name : String) (db : DB) : Vendor × DB :=
  match db.vendors.find? (fun v => v.name == name) with
  | some v => (v, db)
  | none =>
    let v : Vendor := { id := maxVendorId db.vendors + 1, name := name }
    (v, { db with vendors := db.vendors ++ [v] })

/-- One iteration of the `_import_rows` loop body (invoices.py lines
146-191) at enumeration index `i`. -/
def importRow (source : String) (user_id : Nat) (today : Nat) (i : Nat) (row : Row)
    (st : ImportState) : ImportState :=
  let st := { st with total := st.total + 1 }
  let inv_num := pyStrip row.invoice_number
  let store_num := pyStrip row.store_number
  let vendor_name := pyStrip row.vendor_name
  let amount_str := pyStrip row.amount
  let date_str := pyStrip row.invoice_date
  if inv_num == "" || vendor_name == "" || amount_str == "" || store_num == "" then
    { st with errors := st.errors ++ ["Row " ++ toString i ++ ": missing required field(s)"] }
  else
    match parseDecimal amount_str with
    | none =>
      { st with errors :=
          st.errors ++ ["Row " ++ toString i ++ ": invalid amount \x27" ++ amount_str ++ "\x27"] }
    | some amount =>
      match (if date_str == "" then some today else parseDate date_str) with
      | none =>
        { st with errors :=
            st.errors ++ ["Row " ++ toString i ++ ": invalid date \x27" ++ date_str ++ "\x27"] }
      | some inv_date =>
        if st.db.invoices.any (fun inv => inv.invoice_number == inv_num) then
          { st with skipped := st.skipped + 1 }
        else
          let vdb := find_or_create_vendor vendor_name st.db
          let newInv : Invoice :=
            { id := maxInvoiceId vdb.2.invoices + 1
              invoice_number := inv_num
              store_number := store_num
              vendor_id := vdb.1.id
              amount := amount
              invoice_date := inv_date
              status := "PENDING"
              check_id := none
              notes := if pyStrip row.notes == "" then none else some (pyStrip row.notes)
              source_type := source
              imported_by_id := some user_id }
          { st with
            db := { vdb.2 with invoices := vdb.2.invoices ++ [newInv] }
            imported := st.imported + 1 }

/-- The `for i, row in enumerate(rows, start=2)` loop of `_import_rows`,
running from enumeration index `i`. -/
def importRowsFrom (source : String) (user_id : Nat) (today : Nat) :
    Nat → List Row → ImportState → ImportState
  | _, [], st => st
  | i, r :: rs, st =>
    importRowsFrom source user_id today (i + 1) rs (importRow source user_id today i r st)

/-- `_import_rows(rows, source, db, user_id)` (invoices.py lines 142-194):
fold the loop body over the rows, enumeration starting at 2, and package
the summary. -/
def import_rows (rows : List Row) (source : String) (db : DB) (user_id : Nat) (today : Nat) :
    ImportSummary × DB :=
  let st := importRowsFrom source user_id today 2 rows ⟨db, 0, 0, 0, []⟩
  (⟨st.total, st.imported, st.skipped, st.errors⟩, st.db)

-- ── The /api/invoices/import endpoint and its broken call (C4) ───────

/-- A Python error escaping a handler that is not an HTTPException. -/
inductive PyError where
  | typeError (msg : String)
deriving Repr, DecidableEq

/-- A positional argument at a call site of `_import_rows`. -/
inductive ImportRowsArg where
  | rowsArg (rows : List Row)
  | sourceArg (s : String)
  | dbArg (db : DB)
  | userIdArg (uid : Nat)

/-- Python call-time binding for
`async def _import_rows(rows, source, db, user_id)`: the body runs only
when the four required positional parameters all bind; any other argument
list raises TypeError at the call, before the body executes. -/
def call_import_rows (today : Nat) : List ImportRowsArg → Except PyError (ImportSummary × DB)
  | [.rowsArg rows, .sourceArg s, .dbArg db, .userIdArg uid] =>
    .ok (import_rows rows s db uid today)
  | _ => .error (.typeError "import_rows() missing required positional arguments")

/-- Either kind of failure escaping the import endpoint. -/
inductive EndpointFailure where
  | http (e : HTTPException)
  | py (e : PyError)
deriving Repr, DecidableEq

/-- The uploaded file as the endpoint sees it after parsing: its (lowered
or raw) name, the parsed header names, and the parsed data rows. -/
structure UploadedFile where
  filename : String
  headers : List String
  rows : List Row
deriving Repr, DecidableEq

def requiredColumns : List String :=
  ["invoice_number", "store_number", "vendor_name", "amount"]

/-- POST /api/invoices/import (invoices.py lines 197-232), gated by
`allow_all_roles`.  csv.DictReader / openpyxl parsing is abstracted into
`file.headers` and `file.rows`.  Both branches call `_import_rows` with
the three positional arguments `(rows, source, db)` (lines 212 and 229). -/
def import_file (u : User) (file : UploadedFile) (today : Nat) (db : DB) :
    Except EndpointFailure (ImportSummary × DB) :=
  if allow_all_roles u = false then .error (.http ⟨403, "Not enough permissions"⟩) else
  let filename := pyLower file.filename
  if pyEndsWith filename ".csv" then
    if requiredColumns.all (fun c => file.headers.contains c) then
      match call_import_rows today [.rowsArg file.rows, .sourceArg "csv", .dbArg db] with
      | .ok r => .ok r
      | .error e => .error (.py e)
    else .error (.http ⟨400, "File must contain required columns"⟩)
  else if pyEndsWith filename ".xlsx" || pyEndsWith filename ".xls" then
    if requiredColumns.all (fun c => file.headers.contains c) then
      match call_import_rows today [.rowsArg file.rows, .sourceArg "excel", .dbArg db] with
      | .ok r => .ok r
      | .error e => .error (.py e)
    else .error (.http ⟨400, "Excel must contain required columns"⟩)
  else .error (.http ⟨400, "File must be .csv or .xlsx"⟩)

-- ── Manual invoice creation (invoices.py lines 237-307) ──────────────

/-- The multipart form of POST /api/invoices/create.  The optional file
attachment is not modelled (no claim touches it), so `source_type` is
always "manual". -/
structure CreateForm where
  invoice_number : String
  store_number : String
  vendor_id : Nat
  amount : String
  invoice_date : String
  notes : String
deriving Repr, DecidableEq

/-- POST /api/invoices/create (invoices.py lines 237-307), gated by
`allow_all_roles`. -/
def create_invoice_manual (u : User) (form : CreateForm) (today : Nat) (db : DB) :
    Except HTTPException (Invoice × DB) :=
  if allow_all_roles u = false then .error ⟨403, "Not enough permissions"⟩ else
  match parseDecimal form.amount with
  | none => .error ⟨400, "Invalid amount: " ++ form.amount⟩
  | some amt =>
    match parseDate form.invoice_date with
    | none => .error ⟨400, "Invalid date: " ++ form.invoice_date⟩
    | some inv_date =>
      if db.invoices.any (fun i => i.invoice_number == form.invoice_number) then
        .error ⟨400, "Invoice " ++ form.invoice_number ++ " already exists"⟩
      else
        match db.vendors.find? (fun v => v.id == form.vendor_id) with
        | none => .error ⟨400, "Vendor not found"⟩
        | some vendor =>
          let invoice : Invoice :=
            { id := maxInvoiceId db.invoices + 1
              invoice_number := form.invoice_number
              store_number := form.store_number
              vendor_id := vendor.id
              amount := amt
              invoice_date := inv_date
              status := "PENDING"
              check_id := none
              notes := if pyStrip form.notes == "" then none else some (pyStrip form.notes)
              source_type := "manual"
              imported_by_id := some u.id }
          .ok (invoice, { db with invoices := db.invoices ++ [invoice] })

-- ── User management (app/api/routes/auth.py lines 98-134) ────────────

/-- PUT /api/auth/users/:id/role (auth.py lines 98-116), gated by
`allow_admin`. -/
def update_user_role (u : User) (user_id : Nat) (role : String) (db : DB) :
    Except HTTPException (User × DB) :=
  if allow_admin u = false then .error ⟨403, "Not enough permissions"⟩ else
  if (["ADMIN", "CLERK", "VIEWER"].contains role) = false then
    .error ⟨400, "Invalid role. Must be ADMIN, CLERK, or VIEWER"⟩
  else if user_id == u.id then
    .error ⟨400, "Cannot change your own role"⟩
  else
    match db.users.find? (fun x => x.id == user_id) with
    | none => .error ⟨404, "User not found"⟩
    | some target =>
      let t2 := { target with role := role }
      .ok (t2, { db with users := db.users.map fun x => if x.id == user_id then t2 else x })

/-- PUT /api/auth/users/:id/toggle-active (auth.py lines 119-134), gated
by `allow_admin`. -/
def toggle_user_active (u : User) (user_id : Nat) (db : DB) :
    Except HTTPException (User × DB) :=
  if allow_admin u = false then .error ⟨403, "Not enough permissions"⟩ else
  if user_id == u.id then
    .error ⟨400, "Cannot deactivate yourself"⟩
  else
    match db.users.find? (fun x => x.id == user_id) with
    | none => .error ⟨404, "User not found"⟩
    | some target =>
      let t2 := { target with is_active := !target.is_active }
      .ok (t2, { db with users := db.users.map fun x => if x.id == user_id then t2 else x })

-- ── The reachable-state transition system (for claim C2) ─────────────

/-- One API operation that can touch invoices.  The importer is applied as
the `_import_rows` component (the intended effect of the import endpoint;
the endpoint's broken call is the subject of C4 and changes nothing). -/
inductive Op where
  | createOp (u : User) (form : CreateForm) (today : Nat)
  | importOp (rows : List Row) (source : String) (uid : Nat) (today : Nat)
  | updateOp (u : User) (invoice_id : Nat) (body : InvoiceUpdate)
  | approveOp (u : User) (invoice_id : Nat)
  | generateOp (u : User) (body : GenerateCheckRequest) (today : Nat)

def applyOp (db : DB) : Op → DB
  | .createOp u form today => dbAfter (create_invoice_manual u form today db) db
  | .importOp rows source uid today => (import_rows rows source db uid today).2
  | .updateOp u invoice_id body => dbAfter (update_invoice u invoice_id body db) db
  | .approveOp u invoice_id => dbAfter (approve_invoice u invoice_id db) db
  | .generateOp u body today => dbAfter (generate_check u body today db) db

/-- Store states reachable from the empty store through the API's
invoice-touching operations. -/
inductive Reachable : DB → Prop
  | init : Reachable initDB
  | step (db : DB) (op : Op) : Reachable db → Reachable (applyOp db op)

/-- An operation that never patches the status field directly: everything
except an update request carrying a status value. -/
def statusSafeOp : Op → Prop
  | .updateOp _ _ body => body.status = none
  | _ => True

/-- Store states reachable when no update request ever carries a status
field. -/
inductive ReachableNS : DB → Prop
  | init : ReachableNS initDB
  | step (db : DB) (op : Op) : statusSafeOp op → ReachableNS db → ReachableNS (applyOp db op)

/-- `check_id` set implies the status is the one the issuer wrote. -/
def CheckLink (l : List Invoice) : Prop :=
  ∀ inv ∈ l, inv.check_id.isSome = true → inv.status = "CHECK_GENERATED"

-- ── Sample data for witnesses ────────────────────────────────────────

def uAdmin : User := ⟨1, "admin@example.com", "Admin", "ADMIN", true⟩
def uViewer : User := ⟨7, "viewer@example.com", "Viewer", "VIEWER", true⟩
def vAcme : Vendor := ⟨1, "Acme"⟩
def invPending : Invoice :=
  ⟨1, "INV-1", "S1", 1, ⟨10000, 2⟩, 20260101, "PENDING", none, none, "csv", some 1⟩
def dbPending : DB := ⟨[vAcme], [invPending], [], []⟩
def invApproved : Invoice := { invPending with status := "APPROVED" }
def dbApproved : DB := ⟨[vAcme], [invApproved], [], []⟩

/-- The check the issuer mints for `inv` on store `db`. -/
def mintedCheck (body : GenerateCheckRequest) (today : Nat) (db : DB) (inv : Invoice) : Check :=
  { id := maxCheckId db.checks + 1
    check_number := "CHK-" ++ pad6 (maxCheckId db.checks + 1)
    vendor_id := inv.vendor_id
    amount := inv.amount
    status := "GENERATED"
    issue_date := today
    memo := pyStrOr body.memo ("Payment for invoice " ++ inv.invoice_number) }

/-- The store after a successful issuance for `inv`. -/
def dbAfterMint (body : GenerateCheckRequest) (today : Nat) (db : DB) (inv : Invoice) : DB :=
  { db with
    checks := db.checks ++ [mintedCheck body today db inv]
    invoices := db.invoices.map fun i =>
      if i.id == body.invoice_id then
        { inv with check_id := some (mintedCheck body today db inv).id,
                   status := "CHECK_GENERATED" }
      else i }

-- trace: import one row, approve it, issue its check, then patch its
-- status back to PENDING through the raw update endpoint.
def opImport1 : Op := .importOp [⟨"INV-1", "S1", "Acme", "100.00", "", ""⟩] "csv" 1 20260101
def opApprove1 : Op := .approveOp uAdmin 1
def opGenerate1 : Op := .generateOp uAdmin ⟨1, none⟩ 20260102
def opPatchStatus1 : Op := .updateOp uAdmin 1 ⟨none, some "PENDING"⟩

def exGenDB : DB := applyOp (applyOp (applyOp initDB opImport1) opApprove1) opGenerate1
def exBadDB : DB := applyOp exGenDB opPatchStatus1

def exBadInv : Invoice :=
  ⟨1, "INV-1", "S1", 1, ⟨10000, 2⟩, 20260101, "PENDING", some 1, none, "csv", some 1⟩

-- ── Helper lemmas ────────────────────────────────────────────────────

/-- Replacing the row with primary key `pid` leaves the `find?` by that key
pointing at the replacement (earlier rows do not match the key, so their
images do not either). -/
theorem find?_replace_row (pid : Nat) (inv inv2 : Invoice) (h2 : (inv2.id == pid) = true) :
    ∀ l : List Invoice, l.find? (fun i => i.id == pid) = some inv →
      (l.map fun i => if i.id == pid then inv2 else i).find? (fun i => i.id == pid) = some inv2
  | [], h => by simp at h
  | a :: l, h => by
    by_cases ha : (a.id == pid) = true
    · simp only [List.map_cons, List.find?, ha, if_true, h2]
    · have ha' : (a.id == pid) = false := by simpa using ha
      simp only [List.find?, ha'] at h
      have ih := find?_replace_row pid inv inv2 h2 l h
      simp only [List.map_cons, List.find?, ha', Bool.false_eq_true, if_false]
      exact ih

-- ── Claim C7 ─────────────────────────────────────────────────────────

/-- Approve on a found invoice whose status is not PENDING raises the 400
InvalidState error naming that status. -/
theorem approve_invoice_not_pending (u : User) (invoice_id : Nat) (db : DB) (inv : Invoice)
    (hfind : db.invoices.find? (fun i => i.id == invoice_id) = some inv)
    (hst : inv.status ≠ "PENDING") (hu : allow_admin u = true) :
    approve_invoice u invoice_id db =
      .error ⟨400, "Cannot approve invoice with status " ++ inv.status⟩ := by
  simp [approve_invoice, hu, hfind, hst]

/-- Claim C7: on an existing invoice, approve fails with a 400 error
reporting the current status (and leaves the store unchanged) whenever the
status is not PENDING; when the status is PENDING it returns the invoice
with status APPROVED and every other field unchanged, the store differing
only in that row; and approving the same invoice a second time fails. -/
theorem approve_invoice_spec (u : User) (invoice_id : Nat) (db : DB) (inv : Invoice)
    (hu : allow_admin u = true)
    (hfind : db.invoices.find? (fun i => i.id == invoice_id) = some inv) :
    (inv.status ≠ "PENDING" →
      approve_invoice u invoice_id db =
        .error ⟨400, "Cannot approve invoice with status " ++ inv.status⟩ ∧
      dbAfter (approve_invoice u invoice_id db) db = db) ∧
    (inv.status = "PENDING" →
      approve_invoice u invoice_id db =
        .ok ({ inv with status := "APPROVED" },
          { db with invoices := db.invoices.map fun i =>
              if i.id == invoice_id then { inv with status := "APPROVED" } else i }) ∧
      ∀ u2, allow_admin u2 = true →
        approve_invoice u2 invoice_id (dbAfter (approve_invoice u invoice_id db) db) =
          .error ⟨400, "Cannot approve invoice with status APPROVED"⟩) := by
  have hp : (inv.id == invoice_id) = true := by simpa using List.find?_some hfind
  refine ⟨fun hst => ?_, fun hst => ?_⟩
  · refine ⟨approve_invoice_not_pending u invoice_id db inv hfind hst hu, ?_⟩
    rw [approve_invoice_not_pending u invoice_id db inv hfind hst hu]
    rfl
  · have hres : approve_invoice u invoice_id db =
        .ok ({ inv with status := "APPROVED" },
          { db with invoices := db.invoices.map fun i =>
              if i.id == invoice_id then { inv with status := "APPROVED" } else i }) := by
      simp [approve_invoice, hu, hfind, hst]
    refine ⟨hres, fun u2 hu2 => ?_⟩
    rw [hres]
    have hfind2 :=
      find?_replace_row invoice_id inv { inv with status := "APPROVED" } hp db.invoices hfind
    exact approve_invoice_not_pending u2 invoice_id
      { db with invoices := db.invoices.map fun i =>
          if i.id == invoice_id then { inv with status := "APPROVED" } else i }
      { inv with status := "APPROVED" } hfind2 (by simp) hu2

/-- Witness for C7 at a concrete PENDING invoice. -/
theorem approve_invoice_spec_witness :
    allow_admin uAdmin = true ∧
    dbPending.invoices.find? (fun i => i.id == 1) = some invPending ∧
    invPending.status = "PENDING" ∧
    approve_invoice uAdmin 1 dbPending =
      .ok ({ invPending with status := "APPROVED" },
        { dbPending with invoices := dbPending.invoices.map fun i =>
            if i.id == 1 then { invPending with status := "APPROVED" } else i }) :=
  ⟨by decide, by decide, by decide,
    ((approve_invoice_spec uAdmin 1 dbPending invPending (by decide) (by decide)).2 rfl).1⟩

-- ── Claims C1, C3, C8: check issuance ────────────────────────────────

/-- Issuance on a found invoice whose status is not APPROVED raises the
400 InvalidState error naming that status. -/
theorem generate_check_not_approved (u : User) (body : GenerateCheckRequest) (today : Nat)
    (db : DB) (inv : Invoice)
    (hfind : db.invoices.find? (fun i => i.id == body.invoice_id) = some inv)
    (hst : inv.status ≠ "APPROVED") (hu : allow_admin u = true) :
    generate_check u body today db =
      .error ⟨400, "Invoice must be APPROVED (current: " ++ inv.status ++ ")"⟩ := by
  simp [generate_check, hu, hfind, hst]

/-- Issuance on a found APPROVED invoice that already carries a check
reference raises the 400 AlreadyIssued error. -/
theorem generate_check_already_has_check (u : User) (body : GenerateCheckRequest) (today : Nat)
    (db : DB) (inv : Invoice)
    (hfind : db.invoices.find? (fun i => i.id == body.invoice_id) = some inv)
    (hst : inv.status = "APPROVED") (hck : inv.check_id.isSome = true)
    (hu : allow_admin u = true) :
    generate_check u body today db =
      .error ⟨400, "Invoice already has a check assigned"⟩ := by
  simp [generate_check, hu, hfind, hst, hck]

/-- Issuance on a found APPROVED, checkless invoice succeeds with the
minted check and the updated store. -/
theorem generate_check_success (u : User) (body : GenerateCheckRequest) (today : Nat)
    (db : DB) (inv : Invoice)
    (hfind : db.invoices.find? (fun i => i.id == body.invoice_id) = some inv)
    (hst : inv.status = "APPROVED") (hck : inv.check_id = none)
    (hu : allow_admin u = true) :
    generate_check u body today db =
      .ok (mintedCheck body today db inv, dbAfterMint body today db inv) := by
  simp [generate_check, mintedCheck, dbAfterMint, hu, hfind, hst, hck]

/-- Inversion: a successful issuance comes from a found APPROVED,
checkless invoice and yields exactly the minted check and updated store. -/
theorem generate_check_ok_inv (u : User) (body : GenerateCheckRequest) (today : Nat)
    (db : DB) (c : Check) (db2 : DB)
    (hok : generate_check u body today db = .ok (c, db2)) :
    ∃ inv, db.invoices.find? (fun i => i.id == body.invoice_id) = some inv ∧
      inv.status = "APPROVED" ∧ inv.check_id = none ∧
      c = mintedCheck body today db inv ∧ db2 = dbAfterMint body today db inv := by
  by_cases hu : allow_admin u = true
  · cases hfind : db.invoices.find? (fun i => i.id == body.invoice_id) with
    | none => simp [generate_check, hu, hfind] at hok
    | some inv =>
      by_cases hst : inv.status = "APPROVED"
      · cases hck : inv.check_id with
        | some k =>
          rw [generate_check_already_has_check u body today db inv hfind hst
            (by simp [hck]) hu] at hok
          exact absurd hok (by simp)
        | none =>
          rw [generate_check_success u body today db inv hfind hst hck hu] at hok
          simp only [Except.ok.injEq, Prod.mk.injEq] at hok
          exact ⟨inv, rfl, hst, hck, hok.1.symm, hok.2.symm⟩
      · rw [generate_check_not_approved u body today db inv hfind hst hu] at hok
        exact absurd hok (by simp)
  · simp [generate_check, eq_false_of_ne_true hu] at hok

/-- Claim C1: on an existing invoice, generate-check fails with a 400
InvalidState error reporting the current status (store unchanged, no check
created) when the status is not APPROVED; fails with the 400 AlreadyIssued
error (store unchanged) when a check reference is already set; otherwise
creates the check row, points the invoice's check_id at it, sets its
status to CHECK_GENERATED, and any second call on the same invoice fails. -/
theorem generate_check_spec (u : User) (body : GenerateCheckRequest) (today : Nat)
    (db : DB) (inv : Invoice)
    (hu : allow_admin u = true)
    (hfind : db.invoices.find? (fun i => i.id == body.invoice_id) = some inv) :
    (inv.status ≠ "APPROVED" →
      generate_check u body today db =
        .error ⟨400, "Invoice must be APPROVED (current: " ++ inv.status ++ ")"⟩ ∧
      dbAfter (generate_check u body today db) db = db) ∧
    (inv.status = "APPROVED" → inv.check_id.isSome = true →
      generate_check u body today db =
        .error ⟨400, "Invoice already has a check assigned"⟩ ∧
      dbAfter (generate_check u body today db) db = db) ∧
    (inv.status = "APPROVED" → inv.check_id = none →
      generate_check u body today db =
        .ok (mintedCheck body today db inv, dbAfterMint body today db inv) ∧
      (dbAfterMint body today db inv).checks =
        db.checks ++ [mintedCheck body today db inv] ∧
      (dbAfterMint body today db inv).invoices.find? (fun i => i.id == body.invoice_id) =
        some { inv with check_id := some (mintedCheck body today db inv).id,
                        status := "CHECK_GENERATED" } ∧
      ∀ (u2 : User) (memo2 : Option String) (t2 : Nat),
        ∃ e, generate_check u2 ⟨body.invoice_id, memo2⟩ t2 (dbAfterMint body today db inv) =
          .error e) := by
  have hp : (inv.id == body.invoice_id) = true := by simpa using List.find?_some hfind
  refine ⟨fun hst => ?_, fun hst hck => ?_, fun hst hck => ?_⟩
  · refine ⟨generate_check_not_approved u body today db inv hfind hst hu, ?_⟩
    rw [generate_check_not_approved u body today db inv hfind hst hu]
    rfl
  · refine ⟨generate_check_already_has_check u body today db inv hfind hst hck hu, ?_⟩
    rw [generate_check_already_has_check u body today db inv hfind hst hck hu]
    rfl
  · have hfind2 := find?_replace_row body.invoice_id inv
      { inv with check_id := some (mintedCheck body today db inv).id,
                 status := "CHECK_GENERATED" } hp db.invoices hfind
    refine ⟨generate_check_success u body today db inv hfind hst hck hu, rfl, hfind2,
      fun u2 memo2 t2 => ?_⟩
    by_cases hu2 : allow_admin u2 = true
    · exact ⟨_, generate_check_not_approved u2 ⟨body.invoice_id, memo2⟩ t2
        (dbAfterMint body today db inv)
        { inv with check_id := some (mintedCheck body today db inv).id,
                   status := "CHECK_GENERATED" } hfind2 (by simp) hu2⟩
    · exact ⟨⟨403, "Not enough permissions"⟩, by
        simp [generate_check, eq_false_of_ne_true hu2]⟩

/-- Witness for C1: issuing on a concrete APPROVED, checkless invoice
succeeds, and a repeat issuance on the updated store fails. -/
theorem generate_check_spec_witness :
    allow_admin uAdmin = true ∧
    dbApproved.invoices.find? (fun i => i.id == 1) = some invApproved ∧
    invApproved.status = "APPROVED" ∧ invApproved.check_id = none ∧
    generate_check uAdmin ⟨1, none⟩ 20260102 dbApproved =
      .ok (mintedCheck ⟨1, none⟩ 20260102 dbApproved invApproved,
           dbAfterMint ⟨1, none⟩ 20260102 dbApproved invApproved) :=
  ⟨by decide, by decide, by decide, by decide,
    (((generate_check_spec uAdmin ⟨1, none⟩ 20260102 dbApproved invApproved
      (by decide) (by decide)).2.2) rfl rfl).1⟩

theorem maxCheckId_append_singleton (l : List Check) (c : Check) :
    maxCheckId (l ++ [c]) = max (maxCheckId l) c.id := by
  simp [maxCheckId, List.foldl_append]

/-- Claim C3: an issued check's number is "CHK-" followed by one plus the
maximum existing check primary key (0 when none exist), zero-padded to six
digits; with no prior checks the number is CHK-000001; and across two
sequential issuances the numeric parts strictly increase. -/
theorem check_number_spec (u : User) (body : GenerateCheckRequest) (today : Nat)
    (db : DB) (c : Check) (db2 : DB)
    (hok : generate_check u body today db = .ok (c, db2)) :
    c.check_number = "CHK-" ++ pad6 (maxCheckId db.checks + 1) ∧
    (db.checks = [] → c.check_number = "CHK-000001") ∧
    ∀ (u2 : User) (body2 : GenerateCheckRequest) (t2 : Nat) (c2 : Check) (db3 : DB),
      generate_check u2 body2 t2 db2 = .ok (c2, db3) →
      ∃ n1 n2, c.check_number = "CHK-" ++ pad6 n1 ∧
        c2.check_number = "CHK-" ++ pad6 n2 ∧ n1 < n2 := by
  obtain ⟨inv, hfind, hst, hck, hc, hdb2⟩ := generate_check_ok_inv u body today db c db2 hok
  subst hc hdb2
  refine ⟨rfl, fun he => ?_, fun u2 body2 t2 c2 db3 hok2 => ?_⟩
  · simp only [mintedCheck]
    rw [he]
    rfl
  · obtain ⟨inv2, hfind2, hst2, hck2, hc2, hdb3⟩ :=
      generate_check_ok_inv u2 body2 t2 _ c2 db3 hok2
    subst hc2
    refine ⟨maxCheckId db.checks + 1,
      maxCheckId (dbAfterMint body today db inv).checks + 1, rfl, rfl, ?_⟩
    have hch : (dbAfterMint body today db inv).checks =
        db.checks ++ [mintedCheck body today db inv] := rfl
    rw [hch, maxCheckId_append_singleton]
    have hid : (mintedCheck body today db inv).id = maxCheckId db.checks + 1 := rfl
    rw [hid, Nat.max_eq_right (Nat.le_succ _)]
    omega

/-- Witness for C3: the first check issued on a store with no checks is
numbered CHK-000001. -/
theorem check_number_spec_witness :
    generate_check uAdmin ⟨1, none⟩ 20260102 dbApproved =
      .ok (mintedCheck ⟨1, none⟩ 20260102 dbApproved invApproved,
           dbAfterMint ⟨1, none⟩ 20260102 dbApproved invApproved) ∧
    dbApproved.checks = [] ∧
    (mintedCheck ⟨1, none⟩ 20260102 dbApproved invApproved).check_number = "CHK-000001" :=
  ⟨rfl, rfl,
    (check_number_spec uAdmin ⟨1, none⟩ 20260102 dbApproved
      (mintedCheck ⟨1, none⟩ 20260102 dbApproved invApproved)
      (dbAfterMint ⟨1, none⟩ 20260102 dbApproved invApproved) rfl).2.1 rfl⟩

/-- Counterexample for C8: the claim as stated fails when the request supplies
the empty-string memo — Python `body.memo or default` treats "" as falsy,
so the stored memo is the default, not the supplied memo. -/
theorem check_memo_counterexample :
    generate_check uAdmin ⟨1, some ""⟩ 20260102 dbApproved =
      .ok (mintedCheck ⟨1, some ""⟩ 20260102 dbApproved invApproved,
           dbAfterMint ⟨1, some ""⟩ 20260102 dbApproved invApproved) ∧
    (⟨1, some ""⟩ : GenerateCheckRequest).memo = some "" ∧
    (mintedCheck ⟨1, some ""⟩ 20260102 dbApproved invApproved).memo =
      "Payment for invoice INV-1" ∧
    ("Payment for invoice INV-1" : String) ≠ "" :=
  ⟨rfl, rfl, rfl, by decide⟩

/-- Claim C8 (amended): on every successful issuance the check copies the
invoice's amount and vendor, its issue_date is the current date, its memo
is the supplied memo when a non-empty memo is supplied, and the default
"Payment for invoice {invoice_number}" when the memo is absent or empty. -/
theorem check_fields_spec (u : User) (body : GenerateCheckRequest) (today : Nat)
    (db : DB) (c : Check) (db2 : DB)
    (hok : generate_check u body today db = .ok (c, db2)) :
    ∃ inv, db.invoices.find? (fun i => i.id == body.invoice_id) = some inv ∧
      c.amount = inv.amount ∧ c.vendor_id = inv.vendor_id ∧ c.issue_date = today ∧
      (∀ m, body.memo = some m → m ≠ "" → c.memo = m) ∧
      ((body.memo = none ∨ body.memo = some "") →
        c.memo = "Payment for invoice " ++ inv.invoice_number) := by
  obtain ⟨inv, hfind, hst, hck, hc, hdb2⟩ := generate_check_ok_inv u body today db c db2 hok
  subst hc
  refine ⟨inv, hfind, rfl, rfl, rfl, fun m hm hne => ?_, fun hm => ?_⟩
  · simp [mintedCheck, pyStrOr, hm, hne]
  · rcases hm with hm | hm <;> simp [mintedCheck, pyStrOr, hm]

/-- Witness for C8 at a concrete issuance with no memo supplied. -/
theorem check_fields_spec_witness :
    ∃ inv, dbApproved.invoices.find? (fun i => i.id == 1) = some inv ∧
      (mintedCheck ⟨1, none⟩ 20260102 dbApproved invApproved).amount = inv.amount ∧
      (mintedCheck ⟨1, none⟩ 20260102 dbApproved invApproved).vendor_id = inv.vendor_id ∧
      (mintedCheck ⟨1, none⟩ 20260102 dbApproved invApproved).issue_date = 20260102 ∧
      (∀ m, (none : Option String) = some m → m ≠ "" →
        (mintedCheck ⟨1, none⟩ 20260102 dbApproved invApproved).memo = m) ∧
      (((none : Option String) = none ∨ (none : Option String) = some "") →
        (mintedCheck ⟨1, none⟩ 20260102 dbApproved invApproved).memo =
          "Payment for invoice " ++ inv.invoice_number) :=
  check_fields_spec uAdmin ⟨1, none⟩ 20260102 dbApproved
    (mintedCheck ⟨1, none⟩ 20260102 dbApproved invApproved)
    (dbAfterMint ⟨1, none⟩ 20260102 dbApproved invApproved) rfl

-- ── Claims C5, C6: the bulk importer ─────────────────────────────────

/-- Splitting the importer's enumeration: the row after a prefix of length
`n` is processed at enumeration index `i + n`. -/
theorem importRowsFrom_append (source : String) (user_id today : Nat) (row : Row)
    (rows2 : List Row) :
    ∀ (rows1 : List Row) (i : Nat) (st : ImportState),
    importRowsFrom source user_id today i (rows1 ++ row :: rows2) st =
      importRowsFrom source user_id today (i + rows1.length + 1) rows2
        (importRow source user_id today (i + rows1.length) row
          (importRowsFrom source user_id today i rows1 st))
  | [], i, st => rfl
  | r :: rs, i, st => by
    have h1 : i + (r :: rs).length = (i + 1) + rs.length := by
      simp [List.length_cons]
      omega
    rw [List.cons_append, importRowsFrom, importRowsFrom, h1]
    exact importRowsFrom_append source user_id today row rows2 rs (i + 1)
      (importRow source user_id today i r st)

/-- Claim C5: (1) a row with a required field empty after trimming, or an
amount that does not parse as a decimal, leaves imported and skipped (and
the store) unchanged and appends exactly one error string carrying its
enumeration index; (2) the importer's loop, started at 2 as `_import_rows`
starts it, processes the row at 0-based position n at enumeration index
n + 2, i.e. its 1-based data position plus one; (3) the spec's end-to-end
example: a 3-row import whose second row has amount "abc" reports
total_rows 3, imported 2, skipped_duplicates 0 and exactly the error
"Row 3: invalid amount \x27abc\x27". -/
theorem import_row_error_spec :
    (∀ (source : String) (user_id today i : Nat) (row : Row) (st : ImportState),
      (pyStrip row.invoice_number = "" ∨ pyStrip row.vendor_name = "" ∨
        pyStrip row.amount = "" ∨ pyStrip row.store_number = "" ∨
        parseDecimal (pyStrip row.amount) = none) →
      ∃ rest, importRow source user_id today i row st =
        { st with total := st.total + 1,
                  errors := st.errors ++ ["Row " ++ toString i ++ rest] }) ∧
    (∀ (source : String) (user_id today : Nat) (rows1 : List Row) (row : Row)
        (rows2 : List Row) (st : ImportState),
      importRowsFrom source user_id today 2 (rows1 ++ row :: rows2) st =
        importRowsFrom source user_id today (rows1.length + 3) rows2
          (importRow source user_id today (rows1.length + 2) row
            (importRowsFrom source user_id today 2 rows1 st))) ∧
    (import_rows [⟨"INV-1", "S1", "Acme", "100.00", "", ""⟩,
                  ⟨"INV-2", "S1", "Acme", "abc", "", ""⟩,
                  ⟨"INV-3", "S2", "Bolt", "7.25", "", ""⟩] "csv" initDB 1 20260101).1 =
      ⟨3, 2, 0, ["Row 3: invalid amount \x27abc\x27"]⟩ := by
  refine ⟨fun source user_id today i row st hbad => ?_,
    fun source user_id today rows1 row rows2 st => ?_, by decide⟩
  · by_cases hb : (pyStrip row.invoice_number == "" || pyStrip row.vendor_name == "" ||
        pyStrip row.amount == "" || pyStrip row.store_number == "") = true
    · exact ⟨": missing required field(s)", by simp [importRow, hb, String.append_assoc]⟩
    · have hparse : parseDecimal (pyStrip row.amount) = none := by
        rcases hbad with h | h | h | h | h
        · exact absurd (by simp [h]) hb
        · exact absurd (by simp [h]) hb
        · exact absurd (by simp [h]) hb
        · exact absurd (by simp [h]) hb
        · exact h
      refine ⟨": invalid amount \x27" ++ pyStrip row.amount ++ "\x27", ?_⟩
      simp [importRow, eq_false_of_ne_true hb, hparse, String.append_assoc]
  · have h := importRowsFrom_append source user_id today row rows2 rows1 2 st
    have h2 : 2 + rows1.length + 1 = rows1.length + 3 := by omega
    have h1 : 2 + rows1.length = rows1.length + 2 := by omega
    rw [h2, h1] at h
    exact h

/-- Witness for C5 at a concrete bad-amount row. -/
theorem import_row_error_spec_witness :
    (pyStrip (Row.mk "INV-2" "S1" "Acme" "abc" "" "").invoice_number = "" ∨
      pyStrip (Row.mk "INV-2" "S1" "Acme" "abc" "" "").vendor_name = "" ∨
      pyStrip (Row.mk "INV-2" "S1" "Acme" "abc" "" "").amount = "" ∨
      pyStrip (Row.mk "INV-2" "S1" "Acme" "abc" "" "").store_number = "" ∨
      parseDecimal (pyStrip (Row.mk "INV-2" "S1" "Acme" "abc" "" "").amount) = none) ∧
    (∃ rest, importRow "csv" 1 20260101 3 (Row.mk "INV-2" "S1" "Acme" "abc" "" "")
        ⟨initDB, 1, 1, 0, []⟩ =
      { (⟨initDB, 1, 1, 0, []⟩ : ImportState) with
          total := 1 + 1
          errors := ([] : List String) ++ ["Row " ++ toString 3 ++ rest] }) :=
  ⟨Or.inr (Or.inr (Or.inr (Or.inr (by decide)))),
    import_row_error_spec.1 "csv" 1 20260101 3 (Row.mk "INV-2" "S1" "Acme" "abc" "" "")
      ⟨initDB, 1, 1, 0, []⟩ (Or.inr (Or.inr (Or.inr (Or.inr (by decide)))))⟩

/-- Claim C6: a row that passes field validation but whose invoice_number
already exists in the ledger bumps skipped_duplicates by one and changes
nothing else: imported and errors are untouched and no invoice or vendor
row is inserted. -/
theorem import_duplicate_spec (source : String) (user_id today i : Nat) (row : Row)
    (st : ImportState)
    (h1 : pyStrip row.invoice_number ≠ "") (h2 : pyStrip row.vendor_name ≠ "")
    (h3 : pyStrip row.amount ≠ "") (h4 : pyStrip row.store_number ≠ "")
    (hamt : ∃ a, parseDecimal (pyStrip row.amount) = some a)
    (hdate : pyStrip row.invoice_date = "" ∨
      ∃ d, parseDate (pyStrip row.invoice_date) = some d)
    (hdup : st.db.invoices.any
      (fun inv => inv.invoice_number == pyStrip row.invoice_number) = true) :
    importRow source user_id today i row st =
      { st with total := st.total + 1, skipped := st.skipped + 1 } := by
  obtain ⟨a, ha⟩ := hamt
  by_cases hds : (pyStrip row.invoice_date == "") = true
  · simp [importRow, h1, h2, h3, h4, ha, hds, hdup]
  · rcases hdate with hd | ⟨d, hd⟩
    · exact absurd (by simp [hd]) hds
    · simp [importRow, h1, h2, h3, h4, ha, eq_false_of_ne_true hds, hd, hdup]

/-- Witness for C6 at a concrete duplicate row. -/
theorem import_duplicate_spec_witness :
    (pyStrip (Row.mk "INV-1" "S1" "Acme" "100.00" "" "").invoice_number ≠ "") ∧
    dbPending.invoices.any
      (fun inv => inv.invoice_number ==
        pyStrip (Row.mk "INV-1" "S1" "Acme" "100.00" "" "").invoice_number) = true ∧
    importRow "csv" 1 20260101 2 (Row.mk "INV-1" "S1" "Acme" "100.00" "" "")
        ⟨dbPending, 0, 0, 0, []⟩ =
      { (⟨dbPending, 0, 0, 0, []⟩ : ImportState) with total := 0 + 1, skipped := 0 + 1 } :=
  ⟨by decide, by decide,
    import_duplicate_spec "csv" 1 20260101 2 (Row.mk "INV-1" "S1" "Acme" "100.00" "" "")
      ⟨dbPending, 0, 0, 0, []⟩ (by decide) (by decide) (by decide) (by decide)
      ⟨⟨10000, 2⟩, by decide⟩ (Or.inl (by decide)) (by decide)⟩

-- ── Claim C4: the broken import endpoint call ────────────────────────

/-- Claim C4: a bulk-import file that passes the required-header check
reaches the `_import_rows` call, which supplies 3 arguments to a function
with 4 required positional parameters, so TypeError is raised before any
row is processed; moreover the endpoint never succeeds on any input, so no
invoice is ever imported through it. -/
theorem import_file_broken_call (u : User) (file : UploadedFile) (today : Nat) (db : DB)
    (hu : allow_all_roles u = true)
    (hext : pyEndsWith (pyLower file.filename) ".csv" = true ∨
      (pyEndsWith (pyLower file.filename) ".csv" = false ∧
        (pyEndsWith (pyLower file.filename) ".xlsx" ||
          pyEndsWith (pyLower file.filename) ".xls") = true))
    (hhdr : (requiredColumns.all fun c => file.headers.contains c) = true) :
    import_file u file today db =
      .error (.py (.typeError "import_rows() missing required positional arguments")) ∧
    ∀ (u2 : User) (f2 : UploadedFile) (t2 : Nat) (d2 : DB) (r : ImportSummary) (d3 : DB),
      import_file u2 f2 t2 d2 ≠ .ok (r, d3) := by
  constructor
  · have hhdr2 : ∀ x ∈ requiredColumns, x ∈ file.headers := by simpa using hhdr
    rcases hext with h | ⟨hc, hx⟩
    · simp [import_file, hu, h, call_import_rows] <;> exact hhdr2
    · simp [import_file, hu, hc, hx, call_import_rows] <;> exact hhdr2
  · intro u2 f2 t2 d2 r d3
    by_cases hg : allow_all_roles u2 = true
    · by_cases hcsv : pyEndsWith (pyLower f2.filename) ".csv" = true
      · simp [import_file, hg, hcsv]
        split <;> simp [call_import_rows]
      · by_cases hx : (pyEndsWith (pyLower f2.filename) ".xlsx" ||
            pyEndsWith (pyLower f2.filename) ".xls") = true
        · simp [import_file, hg, eq_false_of_ne_true hcsv, hx]
          split <;> simp [call_import_rows]
        · simp [import_file, hg, eq_false_of_ne_true hcsv, eq_false_of_ne_true hx]
    · simp [import_file, eq_false_of_ne_true hg]

/-- Witness for C4 at a concrete well-headed CSV upload. -/
theorem import_file_broken_call_witness :
    allow_all_roles uViewer = true ∧
    pyEndsWith (pyLower "invoices.csv") ".csv" = true ∧
    import_file uViewer
        ⟨"invoices.csv", ["invoice_number", "store_number", "vendor_name", "amount"],
          [⟨"INV-9", "S1", "Acme", "5.00", "", ""⟩]⟩ 20260101 initDB =
      .error (.py (.typeError "import_rows() missing required positional arguments")) :=
  ⟨by decide, by decide,
    (import_file_broken_call uViewer
      ⟨"invoices.csv", ["invoice_number", "store_number", "vendor_name", "amount"],
        [⟨"INV-9", "S1", "Acme", "5.00", "", ""⟩]⟩ 20260101 initDB
      (by decide) (Or.inl (by decide)) (by decide)).1⟩

-- ── Claim C9: role gating of create / import / update ────────────────

/-- Counterexample for C9: a VIEWER's update request does not fail with
Forbidden — it passes the `allow_all_roles` gate and modifies the invoice
(here flipping a PENDING invoice's status to VOID). -/
theorem viewer_not_forbidden_counterexample :
    uViewer.role = "VIEWER" ∧
    invPending.status = "PENDING" ∧
    update_invoice uViewer 1 ⟨none, some "VOID"⟩ dbPending =
      .ok ({ invPending with status := "VOID" },
        { dbPending with invoices := dbPending.invoices.map fun i =>
            if i.id == 1 then { invPending with status := "VOID" } else i }) :=
  ⟨rfl, rfl, rfl⟩

/-- Claim C9 (amended): the create, import, and update invoice endpoints
are gated by `allow_all_roles`, so a request by an active user of any of
the three roles — including VIEWER — is not rejected with Forbidden:
update succeeds on an existing invoice, create succeeds on valid input,
and import proceeds past the role check (it never fails with 403). -/
theorem viewer_can_write_spec (u : User) (hu : allow_all_roles u = true) :
    (∀ (invoice_id : Nat) (body : InvoiceUpdate) (db : DB) (inv : Invoice),
      db.invoices.find? (fun i => i.id == invoice_id) = some inv →
      ∃ r, update_invoice u invoice_id body db = .ok r) ∧
    (∀ (file : UploadedFile) (today : Nat) (db : DB),
      import_file u file today db ≠ .error (.http ⟨403, "Not enough permissions"⟩)) ∧
    (∀ (form : CreateForm) (today : Nat) (db : DB) (amt : Amount) (d : Nat)
        (vendor : Vendor),
      parseDecimal form.amount = some amt →
      parseDate form.invoice_date = some d →
      db.invoices.any (fun i => i.invoice_number == form.invoice_number) = false →
      db.vendors.find? (fun v => v.id == form.vendor_id) = some vendor →
      ∃ r, create_invoice_manual u form today db = .ok r) := by
  refine ⟨fun invoice_id body db inv hfind => ?_, fun file today db => ?_,
    fun form today db amt d vendor hamt hdate hdup hv => ?_⟩
  · refine ⟨({ inv with
        notes := body.notes.getD inv.notes
        status := body.status.getD inv.status },
      { db with invoices := db.invoices.map fun i =>
          if i.id == invoice_id then
            { inv with
                notes := body.notes.getD inv.notes
                status := body.status.getD inv.status }
          else i }), ?_⟩
    simp [update_invoice, hu, hfind]
  · by_cases hcsv : pyEndsWith (pyLower file.filename) ".csv" = true
    · simp [import_file, hu, hcsv]
      split <;> simp [call_import_rows]
    · by_cases hx : (pyEndsWith (pyLower file.filename) ".xlsx" ||
          pyEndsWith (pyLower file.filename) ".xls") = true
      · simp [import_file, hu, eq_false_of_ne_true hcsv, hx]
        split <;> simp [call_import_rows]
      · simp [import_file, hu, eq_false_of_ne_true hcsv, eq_false_of_ne_true hx]
  · refine ⟨({ id := maxInvoiceId db.invoices + 1
               invoice_number := form.invoice_number
               store_number := form.store_number
               vendor_id := vendor.id
               amount := amt
               invoice_date := d
               status := "PENDING"
               check_id := none
               notes := if pyStrip form.notes == "" then none else some (pyStrip form.notes)
               source_type := "manual"
               imported_by_id := some u.id },
      { db with invoices := db.invoices ++
          [{ id := maxInvoiceId db.invoices + 1
             invoice_number := form.invoice_number
             store_number := form.store_number
             vendor_id := vendor.id
             amount := amt
             invoice_date := d
             status := "PENDING"
             check_id := none
             notes := if pyStrip form.notes == "" then none else some (pyStrip form.notes)
             source_type := "manual"
             imported_by_id := some u.id }] }), ?_⟩
    simp [create_invoice_manual, hu, hamt, hdate, hdup, hv]

/-- Witness for C9 (amended) at a concrete VIEWER update. -/
theorem viewer_can_write_spec_witness :
    allow_all_roles uViewer = true ∧
    dbPending.invoices.find? (fun i => i.id == 1) = some invPending ∧
    ∃ r, update_invoice uViewer 1 ⟨some (some "checked"), none⟩ dbPending = .ok r :=
  ⟨by decide, by decide,
    (viewer_can_write_spec uViewer (by decide)).1 1 ⟨some (some "checked"), none⟩
      dbPending invPending (by decide)⟩

-- ── Claim C10: no self role-change or self-deactivation ──────────────

/-- Claim C10: an admin request that targets the requester's own id fails
with a 400 error regardless of the payload — role change fails either on
payload validation or on the self check, active-toggle fails on the self
check — and the user store is unchanged. -/
theorem self_modify_spec (u : User) (role : String) (db : DB)
    (hu : allow_admin u = true) :
    (∃ m, update_user_role u u.id role db = .error ⟨400, m⟩) ∧
    dbAfter (update_user_role u u.id role db) db = db ∧
    toggle_user_active u u.id db = .error ⟨400, "Cannot deactivate yourself"⟩ ∧
    dbAfter (toggle_user_active u u.id db) db = db := by
  have htog : toggle_user_active u u.id db = .error ⟨400, "Cannot deactivate yourself"⟩ := by
    simp [toggle_user_active, hu]
  have hrole : ∃ m, update_user_role u u.id role db = .error ⟨400, m⟩ := by
    by_cases hr : (["ADMIN", "CLERK", "VIEWER"].contains role) = true
    · refine ⟨"Cannot change your own role", ?_⟩
      have hr2 : role = "ADMIN" ∨ role = "CLERK" ∨ role = "VIEWER" := by simpa using hr
      simp [update_user_role, hu]
      exact fun ha hc => (hr2.resolve_left ha).resolve_left hc
    · refine ⟨"Invalid role. Must be ADMIN, CLERK, or VIEWER", ?_⟩
      simp [update_user_role, hu]
      simpa using hr
  obtain ⟨m, hm⟩ := hrole
  exact ⟨⟨m, hm⟩, by rw [hm]; rfl, htog, by rw [htog]; rfl⟩

/-- Witness for C10 at a concrete admin self-targeting request. -/
theorem self_modify_spec_witness :
    allow_admin uAdmin = true ∧
    (∃ m, update_user_role uAdmin uAdmin.id "CLERK" dbPending = .error ⟨400, m⟩) ∧
    toggle_user_active uAdmin uAdmin.id dbPending =
      .error ⟨400, "Cannot deactivate yourself"⟩ :=
  ⟨by decide, (self_modify_spec uAdmin "CLERK" dbPending (by decide)).1,
    (self_modify_spec uAdmin "CLERK" dbPending (by decide)).2.2.1⟩

-- ── Claim C2: the check_id / status invariant ────────────────────────

theorem find_or_create_vendor_invoices (name : String) (db : DB) :
    (find_or_create_vendor name db).2.invoices = db.invoices := by
  unfold find_or_create_vendor
  split <;> rfl

/-- One importer iteration preserves the check link: it inserts only
PENDING invoices with no check reference. -/
theorem checkLink_importRow (source : String) (user_id today i : Nat) (row : Row)
    (st : ImportState) (h : CheckLink st.db.invoices) :
    CheckLink (importRow source user_id today i row st).db.invoices := by
  unfold importRow
  dsimp only
  split
  · exact h
  · split
    · exact h
    · split
      · exact h
      · split
        · exact h
        · intro j hj hck
          rw [find_or_create_vendor_invoices, List.mem_append] at hj
          rcases hj with hj | hj
          · exact h j hj hck
          · rw [List.mem_singleton] at hj
            subst hj
            simp at hck

theorem checkLink_importRowsFrom (source : String) (user_id today : Nat) :
    ∀ (rows : List Row) (i : Nat) (st : ImportState), CheckLink st.db.invoices →
      CheckLink (importRowsFrom source user_id today i rows st).db.invoices
  | [], _, _, h => h
  | r :: rs, i, st, h =>
    checkLink_importRowsFrom source user_id today rs (i + 1) _
      (checkLink_importRow source user_id today i r st h)

/-- Manual creation preserves the check link: it inserts only PENDING
invoices with no check reference. -/
theorem checkLink_create (u : User) (form : CreateForm) (today : Nat) (db : DB)
    (h : CheckLink db.invoices) :
    CheckLink (dbAfter (create_invoice_manual u form today db) db).invoices := by
  unfold create_invoice_manual
  dsimp only
  split
  · exact h
  · split
    · exact h
    · split
      · exact h
      · split
        · exact h
        · split
          · exact h
          · intro j hj hck
            simp only [dbAfter] at hj
            rw [List.mem_append] at hj
            rcases hj with hj | hj
            · exact h j hj hck
            · rw [List.mem_singleton] at hj
              subst hj
              simp at hck

/-- A status-free update preserves the check link: it can only patch
notes, leaving check_id and status of every row unchanged. -/
theorem checkLink_update (u : User) (invoice_id : Nat) (body : InvoiceUpdate) (db : DB)
    (hbody : body.status = none) (h : CheckLink db.invoices) :
    CheckLink (dbAfter (update_invoice u invoice_id body db) db).invoices := by
  by_cases hu : allow_all_roles u = true
  · cases hfind : db.invoices.find? (fun i => i.id == invoice_id) with
    | none =>
      have hres : update_invoice u invoice_id body db =
          .error ⟨404, "Invoice not found"⟩ := by
        simp [update_invoice, hu, hfind]
      rw [hres]
      exact h
    | some inv =>
      have hinv := List.mem_of_find?_eq_some hfind
      have hres : update_invoice u invoice_id body db =
          .ok ({ inv with notes := body.notes.getD inv.notes
                          status := body.status.getD inv.status },
            { db with invoices := db.invoices.map fun i =>
                if i.id == invoice_id then
                  { inv with notes := body.notes.getD inv.notes
                             status := body.status.getD inv.status }
                else i }) := by
        simp [update_invoice, hu, hfind]
      rw [hres]
      intro j hj hck
      rcases List.mem_map.mp hj with ⟨i0, hi0, hrep⟩
      by_cases hid : (i0.id == invoice_id) = true
      · rw [if_pos hid] at hrep
        subst hrep
        rw [hbody] at hck ⊢
        exact h inv hinv hck
      · rw [if_neg (by simpa using hid)] at hrep
        subst hrep
        exact h i0 hi0 hck
  · have hres : update_invoice u invoice_id body db =
        .error ⟨403, "Not enough permissions"⟩ := by
      simp [update_invoice, eq_false_of_ne_true hu]
    rw [hres]
    exact h

/-- Approve preserves the check link: it only promotes PENDING rows, and a
row carrying a check reference is never PENDING. -/
theorem checkLink_approve (u : User) (invoice_id : Nat) (db : DB)
    (h : CheckLink db.invoices) :
    CheckLink (dbAfter (approve_invoice u invoice_id db) db).invoices := by
  by_cases hu : allow_admin u = true
  · cases hfind : db.invoices.find? (fun i => i.id == invoice_id) with
    | none =>
      have hres : approve_invoice u invoice_id db =
          .error ⟨404, "Invoice not found"⟩ := by
        simp [approve_invoice, hu, hfind]
      rw [hres]
      exact h
    | some inv =>
      have hinv := List.mem_of_find?_eq_some hfind
      by_cases hst : inv.status = "PENDING"
      · have hres : approve_invoice u invoice_id db =
            .ok ({ inv with status := "APPROVED" },
              { db with invoices := db.invoices.map fun i =>
                  if i.id == invoice_id then { inv with status := "APPROVED" } else i }) := by
          simp [approve_invoice, hu, hfind, hst]
        rw [hres]
        intro j hj hck
        rcases List.mem_map.mp hj with ⟨i0, hi0, hrep⟩
        by_cases hid : (i0.id == invoice_id) = true
        · rw [if_pos hid] at hrep
          subst hrep
          have : inv.status = "CHECK_GENERATED" := h inv hinv hck
          rw [hst] at this
          exact absurd this (by decide)
        · rw [if_neg (by simpa using hid)] at hrep
          subst hrep
          exact h i0 hi0 hck
      · rw [approve_invoice_not_pending u invoice_id db inv hfind hst hu]
        exact h
  · have hres : approve_invoice u invoice_id db =
        .error ⟨403, "Not enough permissions"⟩ := by
      simp [approve_invoice, eq_false_of_ne_true hu]
    rw [hres]
    exact h

/-- Issuance preserves the check link: it writes check_id and
CHECK_GENERATED together. -/
theorem checkLink_generate (u : User) (body : GenerateCheckRequest) (today : Nat) (db : DB)
    (h : CheckLink db.invoices) :
    CheckLink (dbAfter (generate_check u body today db) db).invoices := by
  by_cases hu : allow_admin u = true
  · cases hfind : db.invoices.find? (fun i => i.id == body.invoice_id) with
    | none =>
      have hres : generate_check u body today db =
          .error ⟨404, "Invoice not found"⟩ := by
        simp [generate_check, hu, hfind]
      rw [hres]
      exact h
    | some inv =>
      by_cases hst : inv.status = "APPROVED"
      · cases hck : inv.check_id with
        | some k =>
          rw [generate_check_already_has_check u body today db inv hfind hst
            (by simp [hck]) hu]
          exact h
        | none =>
          rw [generate_check_success u body today db inv hfind hst hck hu]
          intro j hj hckj
          rcases List.mem_map.mp hj with ⟨i0, hi0, hrep⟩
          by_cases hid : (i0.id == body.invoice_id) = true
          · rw [if_pos hid] at hrep
            subst hrep
            rfl
          · rw [if_neg (by simpa using hid)] at hrep
            subst hrep
            exact h i0 hi0 hckj
      · rw [generate_check_not_approved u body today db inv hfind hst hu]
        exact h
  · have hres : generate_check u body today db =
        .error ⟨403, "Not enough permissions"⟩ := by
      simp [generate_check, eq_false_of_ne_true hu]
    rw [hres]
    exact h

/-- Every status-free API operation preserves the check link. -/
theorem checkLink_applyOp (db : DB) (op : Op) (hop : statusSafeOp op)
    (h : CheckLink db.invoices) : CheckLink (applyOp db op).invoices := by
  cases op with
  | createOp u form today => exact checkLink_create u form today db h
  | importOp rows source uid today =>
    exact checkLink_importRowsFrom source uid today rows 2 ⟨db, 0, 0, 0, []⟩ h
  | updateOp u invoice_id body => exact checkLink_update u invoice_id body db hop h
  | approveOp u invoice_id => exact checkLink_approve u invoice_id db h
  | generateOp u body today => exact checkLink_generate u body today db h

/-- Counterexample for C2: the update endpoint is among the API's operations
and patches status without validation, so a reachable state has an invoice
with check_id set and status PENDING. -/
theorem checkid_invariant_counterexample :
    ¬ (∀ db : DB, Reachable db → ∀ inv ∈ db.invoices, inv.check_id ≠ none →
        inv.status ∈ (["CHECK_GENERATED", "PRINTED", "VOID"] : List String)) := by
  intro hclaim
  have hreach : Reachable exBadDB :=
    Reachable.step _ opPatchStatus1
      (Reachable.step _ opGenerate1
        (Reachable.step _ opApprove1
          (Reachable.step _ opImport1 Reachable.init)))
  have hbad := hclaim exBadDB hreach exBadInv (by decide) (by decide)
  exact absurd hbad (by decide)

/-- Claim C2 (amended): in every state reachable through create, import,
approve, generate-check, and updates that do not carry a status field, an
invoice with check_id set has status CHECK_GENERATED, PRINTED, or VOID
(the forward path in fact always leaves it CHECK_GENERATED). -/
theorem checkid_invariant_spec (db : DB) (h : ReachableNS db) :
    ∀ inv ∈ db.invoices, inv.check_id.isSome = true →
      inv.status ∈ (["CHECK_GENERATED", "PRINTED", "VOID"] : List String) := by
  have hcl : CheckLink db.invoices := by
    induction h with
    | init => intro inv hmem _; simp [initDB] at hmem
    | step db2 op hop _ ih => exact checkLink_applyOp db2 op hop ih
  intro inv hmem hck
  rw [hcl inv hmem hck]
  simp

/-- Witness for C2 (amended) at the concrete import-approve-issue trace. -/
theorem checkid_invariant_spec_witness :
    ReachableNS exGenDB ∧
    (⟨1, "INV-1", "S1", 1, ⟨10000, 2⟩, 20260101, "CHECK_GENERATED", some 1, none,
      "csv", some 1⟩ : Invoice) ∈ exGenDB.invoices ∧
    (⟨1, "INV-1", "S1", 1, ⟨10000, 2⟩, 20260101, "CHECK_GENERATED", some 1, none,
      "csv", some 1⟩ : Invoice).status ∈
      (["CHECK_GENERATED", "PRINTED", "VOID"] : List String) := by
  have hreach : ReachableNS exGenDB :=
    ReachableNS.step _ opGenerate1 trivial
      (ReachableNS.step _ opApprove1 trivial
        (ReachableNS.step _ opImport1 trivial ReachableNS.init))
  exact ⟨hreach, by decide,
    checkid_invariant_spec exGenDB hreach _ (by decide) (by decide)⟩

end CheckPrint
